import Mathlib

/-!
Shallow embedding of the Itqan CMS front-end logic that the specification
talks about: the Auth0 session reconciler (`auth0-integrated-provider.tsx`),
the dashboard search/filter/pagination state (`dashboard-content.tsx`),
the pagination component, the filters sidebar, the search bar, and the
login/signup form submit gating.

State updates (`useState` setters plus `localStorage` writes) are modelled as
pure functions on explicit state records; asynchronous results (the Auth0
`/userinfo` fallback, the profile-completion backend response) are passed in
as explicit result values.
-/

namespace ItqanCMS

/-! ## Data model (auth0-integrated-provider.tsx) -/

/-- The `User` interface of `auth0-integrated-provider.tsx`. -/
structure User where
  id : String
  email : String
  firstName : String
  lastName : String
  provider : String
  profileCompleted : Bool
  auth0Id : String
deriving DecidableEq, Repr

/-- The Auth0 SDK user object, restricted to the claims the provider reads.
Absent claims are `none`; the code treats the empty string as absent via
JavaScript falsiness (`auth0User.email || undefined`). -/
structure Auth0User where
  sub : String
  email : Option String
  given_name : Option String
  family_name : Option String
deriving DecidableEq, Repr

/-- The part of the Auth0 SDK state (`useAuth0()`) that the provider consumes. -/
structure Auth0State where
  isAuthenticated : Bool
  user : Option Auth0User
  isLoading : Bool
deriving DecidableEq, Repr

/-- The two persisted localStorage keys: the `itqan_user` JSON blob (modelled
already parsed) and the `itqan_profile_completed` string flag. -/
structure Storage where
  itqan_user : Option User
  itqan_profile_completed : Option String
deriving DecidableEq, Repr

/-- The provider component's own `useState` cells. -/
structure ComponentState where
  user : Option User
  isLoading : Bool
  requiresProfileCompletion : Bool
deriving DecidableEq, Repr

/-- Component state together with the persisted storage it reads and writes. -/
structure AuthSystemState where
  comp : ComponentState
  storage : Storage
deriving DecidableEq, Repr

/-! ## Reconciler operations -/

/-- `persistUserState`: set the in-memory user; persist it under `itqan_user`
when present, otherwise remove both `itqan_user` and `itqan_profile_completed`. -/
def persistUserState (userData : Option User) (s : AuthSystemState) : AuthSystemState :=
  match userData with
  | some u =>
    { s with
      comp := { s.comp with user := some u }
      storage := { s.storage with itqan_user := some u } }
  | none =>
    { s with
      comp := { s.comp with user := none }
      storage := { itqan_user := none, itqan_profile_completed := none } }

/-- The mount-time `useEffect`: load `itqan_user` and `itqan_profile_completed`
from localStorage; when a stored user exists, set it and derive
`requiresProfileCompletion` as `profileCompleted !== '1' && !parsedUser.profileCompleted`. -/
def mountLoad (s : AuthSystemState) : AuthSystemState :=
  match s.storage.itqan_user with
  | some parsedUser =>
    { s with
      comp := { s.comp with
        user := some parsedUser
        requiresProfileCompletion :=
          !(s.storage.itqan_profile_completed == some "1") && !parsedUser.profileCompleted } }
  | none => s

/-- Outcome of the `/userinfo` fallback fetch during `syncUser`: an ok response
with a body (whose `email` claim may be absent), a non-ok response, or a
thrown network error (caught and logged by the code). -/
inductive UserinfoResult
  | ok (email : Option String)
  | nonOk
  | netError
deriving DecidableEq, Repr

/-- Email resolution in `syncUser`: use the primary claim when present and
non-empty (JS falsiness), otherwise fall back to the `/userinfo` response. -/
def resolveEmail (au : Auth0User) (ui : UserinfoResult) : Option String :=
  let primary : Option String :=
    match au.email with
    | some e => if e = "" then none else some e
    | none => none
  match primary with
  | some e => some e
  | none =>
    match ui with
    | .ok email => email
    | .nonOk => none
    | .netError => none

/-- The `syncUser` effect body: when Auth0 is loading do nothing; when
authenticated with an Auth0 user, build the local `User` from claims (falling
back to `/userinfo` for the email), upgrade `profileCompleted` from the
persisted flag, persist, and set `requiresProfileCompletion`; otherwise clear
persisted user state and reset the flag. `isLoading` ends false on every
non-loading path (`finally`). -/
def syncUser (a : Auth0State) (ui : UserinfoResult) (s : AuthSystemState) : AuthSystemState :=
  if a.isLoading then s
  else
    let notAuthenticated : AuthSystemState :=
      let s1 := persistUserState none s
      { s1 with comp := { s1.comp with requiresProfileCompletion := false, isLoading := false } }
    if a.isAuthenticated then
      match a.user with
      | some au =>
        let resolvedEmail := resolveEmail au ui
        let userData0 : User :=
          { id := au.sub
            email := resolvedEmail.getD ""
            firstName := au.given_name.getD ""
            lastName := au.family_name.getD ""
            provider := "auth0"
            profileCompleted := false
            auth0Id := au.sub }
        let userData :=
          if s.storage.itqan_profile_completed == some "1" then
            { userData0 with profileCompleted := true }
          else userData0
        let s1 := persistUserState (some userData) s
        { s1 with comp := { s1.comp with
            requiresProfileCompletion := !userData.profileCompleted
            isLoading := false } }
      | none => notAuthenticated
    else notAuthenticated

/-- The `logout` handler: besides the external Auth0 logout redirect, it only
resets the in-memory user and the `requiresProfileCompletion` flag; it does not
touch localStorage. -/
def logout (s : AuthSystemState) : AuthSystemState :=
  { s with comp := { s.comp with user := none, requiresProfileCompletion := false } }

/-- The `updateUser` operation: replace the in-memory user and derive
`requiresProfileCompletion` from its own `profileCompleted` flag alone. -/
def updateUser (userData : User) (s : AuthSystemState) : AuthSystemState :=
  { s with comp := { s.comp with
      user := some userData
      requiresProfileCompletion := !userData.profileCompleted } }

/-- The backend user record returned by `POST /api/v1/auth/complete-profile/`. -/
structure BackendUser where
  id : String
  email : String
  first_name : String
  last_name : String
deriving DecidableEq, Repr

/-- Outcome of the profile-completion request: an ok response with the backend
user, a non-ok response, or a thrown network/token error. -/
inductive ProfileResponse
  | ok (backendUser : BackendUser)
  | errResp
  | netError
deriving DecidableEq, Repr

/-- The `completeProfile` operation. On an ok response: build the completed
`User`, persist it, clear `requiresProfileCompletion`, set the
`itqan_profile_completed` flag to `"1"`, and redirect to the dashboard
(returned as `Except.ok target`). On a non-ok response or a thrown error the
error is rethrown (`Except.error ()`) and no state is mutated. -/
def completeProfile (resp : ProfileResponse) (auth0Sub locale : String)
    (s : AuthSystemState) : AuthSystemState × Except Unit String :=
  match resp with
  | .ok backendUser =>
    let userData : User :=
      { id := backendUser.id
        email := backendUser.email
        firstName := backendUser.first_name
        lastName := backendUser.last_name
        provider := "auth0"
        profileCompleted := true
        auth0Id := auth0Sub }
    let s1 := persistUserState (some userData) s
    let s2 := { s1 with comp := { s1.comp with requiresProfileCompletion := false } }
    let s3 := { s2 with storage := { s2.storage with itqan_profile_completed := some "1" } }
    (s3, Except.ok ("/" ++ locale ++ "/dashboard"))
  | .errResp => (s, Except.error ())
  | .netError => (s, Except.error ())

/-! ## Route guard -/

/-- Does the character list starting here begin with `pat`? -/
def startsWithList : List Char → List Char → Bool
  | [], _ => true
  | _ :: _, [] => false
  | p :: ps, c :: cs => p = c && startsWithList ps cs

/-- Does `l` contain `pat` as a contiguous sublist? -/
def containsList (pat : List Char) : List Char → Bool
  | [] => pat.isEmpty
  | c :: cs => startsWithList pat (c :: cs) || containsList pat cs

/-- JavaScript `pathname.includes(pat)`. -/
def strContains (s pat : String) : Bool := containsList pat.data s.data

/-- The route-protection `useEffect`: returns the `router.replace` target, if
any. Waits for both loading flags; callback routes are exempt; an
authenticated user (Auth0 flag and local user) is sent to the completion page
when `requiresProfileCompletion` holds, or from auth pages to the dashboard
when it does not; otherwise an unauthenticated visitor outside auth pages and
the home page is sent to the login page. -/
def routeGuard (a : Auth0State) (c : ComponentState) (pathname locale : String) :
    Option String :=
  if c.isLoading || a.isLoading then none
  else
    let isAuthRoute := strContains pathname "/auth/"
    let isHomePage := pathname == "/" ++ locale || pathname == "/" ++ locale ++ "/"
    let isCallbackRoute := strContains pathname "/auth/callback"
    if isCallbackRoute then none
    else
      let authedRedirect : Option String :=
        if a.isAuthenticated && c.user.isSome then
          if c.requiresProfileCompletion && !strContains pathname "/auth/complete-profile" then
            some ("/" ++ locale ++ "/auth/complete-profile")
          else if !c.requiresProfileCompletion && isAuthRoute && !isCallbackRoute then
            some ("/" ++ locale ++ "/dashboard")
          else none
        else none
      match authedRedirect with
      | some r => some r
      | none =>
        if !a.isAuthenticated && !a.isLoading && !isAuthRoute && !isHomePage then
          some ("/" ++ locale ++ "/auth/login")
        else none

/-- The right-hand side of the §3 invariant: a User exists, the provider
reports authenticated, and the completion flag (the User's own or the
persisted `itqan_profile_completed = "1"`) is false. -/
def requiredByInvariant (a : Auth0State) (s : AuthSystemState) : Bool :=
  match s.comp.user with
  | some u =>
    a.isAuthenticated && !(u.profileCompleted || s.storage.itqan_profile_completed == some "1")
  | none => false

/-! ## Dashboard state (dashboard-content.tsx) -/

/-- The selected facet values, one array per facet category. -/
structure FiltersState where
  categories : List String
  formats : List String
  languages : List String
  licenses : List String
deriving DecidableEq, Repr

/-- The four facet categories (the keys of `FiltersState`). -/
inductive FacetType
  | categories
  | formats
  | languages
  | licenses
deriving DecidableEq, Repr

/-- Read the array of one facet category. -/
def FiltersState.get (f : FiltersState) : FacetType → List String
  | .categories => f.categories
  | .formats => f.formats
  | .languages => f.languages
  | .licenses => f.licenses

/-- Replace the array of one facet category (the computed-property spread
`{ ...filters, [filterType]: newValues }`). -/
def FiltersState.set (f : FiltersState) : FacetType → List String → FiltersState
  | .categories, vs => { f with categories := vs }
  | .formats, vs => { f with formats := vs }
  | .languages, vs => { f with languages := vs }
  | .licenses, vs => { f with licenses := vs }

/-- `handleFilterChange` of the filters sidebar: append the value when checked,
remove every occurrence when unchecked; other facet arrays are spread through
unchanged. -/
def handleFilterChange (filters : FiltersState) (filterType : FacetType)
    (value : String) (checked : Bool) : FiltersState :=
  let currentValues := filters.get filterType
  let newValues :=
    if checked then currentValues ++ [value]
    else currentValues.filter (fun v => v ≠ value)
  filters.set filterType newValues

/-- `clearAllFilters` of the filters sidebar. -/
def clearAllFilters : FiltersState :=
  { categories := [], formats := [], languages := [], licenses := [] }

/-- The pagination envelope of the API contract. JavaScript numbers are
modelled as integers. -/
structure PaginationInfo where
  page : Int
  per_page : Int
  total : Int
  pages : Int
  has_next : Bool
  has_prev : Bool
deriving DecidableEq, Repr

/-- The dashboard's transient UI state: search text, facets, pagination. -/
structure DashboardState where
  searchQuery : String
  filters : FiltersState
  pagination : PaginationInfo
deriving DecidableEq, Repr

/-- `handleSearch` (the `onSearch` callback): set the query and reset the page
to 1. -/
def handleSearch (query : String) (s : DashboardState) : DashboardState :=
  { s with
    searchQuery := query
    pagination := { s.pagination with page := 1 } }

/-- `handleFiltersChange`: set the filters and reset the page to 1. -/
def handleFiltersChange (newFilters : FiltersState) (s : DashboardState) : DashboardState :=
  { s with
    filters := newFilters
    pagination := { s.pagination with page := 1 } }

/-- `handlePageChange`: set only the page. -/
def handlePageChange (page : Int) (s : DashboardState) : DashboardState :=
  { s with pagination := { s.pagination with page := page } }

/-- The SearchBar `onChange` wiring: `onChange={setSearchQuery}` updates the
query directly, with no page reset. -/
def searchOnChange (value : String) (s : DashboardState) : DashboardState :=
  { s with searchQuery := value }

/-! ## Pagination component -/

/-- An entry of the visible page-number row: a page button or an ellipsis. -/
inductive PageItem
  | page (n : Int)
  | ellipsis
deriving DecidableEq, Repr

/-- The ascending integers from `lo` to `hi` inclusive (a JS
`for (let i = lo; i <= hi; i++)` loop), empty when `hi < lo`. -/
def intRange (lo hi : Int) : List Int :=
  (List.range (hi + 1 - lo).toNat).map (fun (k : Nat) => lo + (k : Int))

/-- `getVisiblePages` of the Pagination component. -/
def getVisiblePages (page pages : Int) : List PageItem :=
  if pages ≤ 7 then
    (intRange 1 pages).map PageItem.page
  else
    if page ≤ 4 then
      PageItem.page 1 :: (intRange 2 5).map PageItem.page ++ [PageItem.ellipsis, PageItem.page pages]
    else if page ≥ pages - 3 then
      PageItem.page 1 :: PageItem.ellipsis :: (intRange (pages - 4) pages).map PageItem.page
    else
      PageItem.page 1 :: PageItem.ellipsis ::
        (intRange (page - 1) (page + 1)).map PageItem.page ++
        [PageItem.ellipsis, PageItem.page pages]

/-- What the Pagination component renders: the summary range, the page-number
row, and the two controls with their disabled flags and click targets. -/
structure PaginationRender where
  startItem : Int
  endItem : Int
  visiblePages : List PageItem
  prevDisabled : Bool
  nextDisabled : Bool
  prevTarget : Int
  nextTarget : Int
deriving DecidableEq, Repr

/-- The Pagination component: `null` when `pages <= 1`, otherwise the rendered
summary and controls. -/
def renderPagination (p : PaginationInfo) : Option PaginationRender :=
  if p.pages ≤ 1 then none
  else
    some
      { startItem := (p.page - 1) * p.per_page + 1
        endItem := min (p.page * p.per_page) p.total
        visiblePages := getVisiblePages p.page p.pages
        prevDisabled := !p.has_prev
        nextDisabled := !p.has_next
        prevTarget := p.page - 1
        nextTarget := p.page + 1 }

/-! ## Form submission (login-form.tsx / signup-form.tsx) -/

/-- One form field: its name, its current value, and whether it is required. -/
structure FormField where
  name : String
  value : String
  required : Bool
deriving DecidableEq, Repr

/-- One field-scoped validation error. -/
structure FieldError where
  field : String
  message : String
deriving DecidableEq, Repr

/-- A validator result: the `{ isValid, errors }` shape consumed by the submit
handlers. -/
structure ValidationResult where
  isValid : Bool
  errors : List FieldError
deriving DecidableEq, Repr

/-- Modelled from the spec: `validateLoginForm` / `validateSignupForm` live in
`src/lib/validations`, which is not part of the provided sources. Per §4.2 a
validator produces a mapping from field name to error message, and per §8
submitting with any required field empty yields a non-empty error for that
field. -/
def validateForm (fields : List FormField) : ValidationResult :=
  let errs :=
    (fields.filter (fun f => f.required && f.value == "")).map
      (fun f => { field := f.name, message := f.name ++ " is required" : FieldError })
  { isValid := errs.isEmpty, errors := errs }

/-- The `validation.errors.forEach(e => fieldErrors[e.field] = e.message)`
record build: later assignments override earlier ones. -/
def applyFieldErrors : List FieldError → String → Option String
  | [], _ => none
  | e :: rest, n =>
    match applyFieldErrors rest n with
    | some m => some m
    | none => if n = e.field then some e.message else none

/-- Observable outcome of one submit-handler run: the field-error mapping it
set, and whether the backend operation was invoked. -/
structure SubmitResult where
  fieldErrors : String → Option String
  networkCalled : Bool

/-- The shared submit-handler gating of `handleEmailLogin` (login form) and
`handleSubmit` (signup form): validate; on failure set the field errors and
return before any network call; on success proceed to the backend operation. -/
def handleFormSubmit (fields : List FormField) : SubmitResult :=
  let validation := validateForm fields
  if !validation.isValid then
    { fieldErrors := applyFieldErrors validation.errors, networkCalled := false }
  else
    { fieldErrors := fun _ => none, networkCalled := true }

/-- Modelled from the spec: the login form validates its two fields via
`validateLoginForm` (not in the provided sources); both are required. -/
def handleEmailLogin (email password : String) : SubmitResult :=
  handleFormSubmit
    [ { name := "email", value := email, required := true }
    , { name := "password", value := password, required := true } ]

/-- Modelled from the spec: the signup form validates its six fields via
`validateSignupForm` (not in the provided sources); all are required. -/
def handleSignupSubmit (firstName lastName jobTitle phoneNumber email password : String) :
    SubmitResult :=
  handleFormSubmit
    [ { name := "firstName", value := firstName, required := true }
    , { name := "lastName", value := lastName, required := true }
    , { name := "jobTitle", value := jobTitle, required := true }
    , { name := "phoneNumber", value := phoneNumber, required := true }
    , { name := "email", value := email, required := true }
    , { name := "password", value := password, required := true } ]

/-! ## Concrete sample states -/

/-- A user whose profile is not yet completed. -/
def sampleUserIncomplete : User :=
  { id := "auth0|123", email := "user@example.com", firstName := "Al", lastName := "Bee"
    provider := "auth0", profileCompleted := false, auth0Id := "auth0|123" }

/-- The Auth0 claims of the sample user. -/
def auth0UserSample : Auth0User :=
  { sub := "auth0|123", email := some "user@example.com"
    given_name := some "Al", family_name := some "Bee" }

/-- An Auth0 user with no email claim. -/
def auth0UserNoEmail : Auth0User :=
  { sub := "auth0|999", email := none, given_name := none, family_name := none }

/-- Auth0 settled and unauthenticated. -/
def auth0Unauthed : Auth0State := { isAuthenticated := false, user := none, isLoading := false }

/-- Auth0 settled and authenticated as the sample user. -/
def auth0Authed : Auth0State :=
  { isAuthenticated := true, user := some auth0UserSample, isLoading := false }

/-- Auth0 settled and authenticated as the email-less user. -/
def auth0AuthedNoEmail : Auth0State :=
  { isAuthenticated := true, user := some auth0UserNoEmail, isLoading := false }

/-- Fresh component state with empty storage. -/
def emptyState : AuthSystemState :=
  { comp := { user := none, isLoading := false, requiresProfileCompletion := false }
    storage := { itqan_user := none, itqan_profile_completed := none } }

/-- A state with the incomplete sample user both in memory and persisted. -/
def loggedInState : AuthSystemState :=
  { comp := { user := some sampleUserIncomplete, isLoading := false
              requiresProfileCompletion := true }
    storage := { itqan_user := some sampleUserIncomplete, itqan_profile_completed := some "0" } }

/-- A backend user record as returned by the profile-completion endpoint. -/
def backendUserSample : BackendUser :=
  { id := "42", email := "user@example.com", first_name := "Al", last_name := "Bee" }

/-- A dashboard state sitting on page 3. -/
def dashStatePage3 : DashboardState :=
  { searchQuery := ""
    filters := clearAllFilters
    pagination :=
      { page := 3, per_page := 20, total := 156, pages := 8, has_next := true, has_prev := true } }

/-- A pagination envelope on page 3 of 8. -/
def paginationSample : PaginationInfo :=
  { page := 3, per_page := 20, total := 156, pages := 8, has_next := true, has_prev := true }

/-- What the Pagination component renders for `paginationSample`. -/
def paginationSampleRender : PaginationRender :=
  { startItem := 41, endItem := 60
    visiblePages := [PageItem.page 1, PageItem.page 2, PageItem.page 3, PageItem.page 4,
      PageItem.page 5, PageItem.ellipsis, PageItem.page 8]
    prevDisabled := false, nextDisabled := false, prevTarget := 2, nextTarget := 4 }

/-! ## Theorems -/

/-- C4: when the profile-completion submission succeeds (the backend responds
ok), `completeProfile` updates the persisted User state to one with
`profileCompleted` true, sets the persisted completion flag to `"1"`, flips
`requiresProfileCompletion` to false, and redirects to the dashboard. -/
theorem C4_complete_profile_success (b : BackendUser) (sub loc : String)
    (s : AuthSystemState) :
    ∃ u : User,
      (completeProfile (.ok b) sub loc s).1.comp.user = some u ∧
      u.profileCompleted = true ∧
      (completeProfile (.ok b) sub loc s).1.storage.itqan_user = some u ∧
      (completeProfile (.ok b) sub loc s).1.storage.itqan_profile_completed = some "1" ∧
      (completeProfile (.ok b) sub loc s).1.comp.requiresProfileCompletion = false ∧
      (completeProfile (.ok b) sub loc s).2 = Except.ok ("/" ++ loc ++ "/dashboard") := by
  exact ⟨{ id := b.id, email := b.email, firstName := b.first_name, lastName := b.last_name
           provider := "auth0", profileCompleted := true, auth0Id := sub },
    rfl, rfl, rfl, rfl, rfl, rfl⟩

/-- C5 counterexample: in a dashboard state on page 3, the SearchBar's
`onChange` wiring (`onChange={setSearchQuery}`) changes the search text yet
leaves the page at 3, so a change of the search text does not always reset the
page to 1. -/
theorem C5_counterexample :
    (searchOnChange "quran" dashStatePage3).searchQuery = "quran" ∧
    dashStatePage3.searchQuery ≠ "quran" ∧
    (searchOnChange "quran" dashStatePage3).pagination.page = 3 := by
  refine ⟨rfl, by decide, rfl⟩

/-- C5 (amended): submitting a search (`onSearch`/`handleSearch`) and any facet
change reset the page to 1; typing in the search box (the `onChange` wiring)
updates the search text but leaves the pagination unchanged; page navigation
changes only the page, leaving search text and facets unchanged. -/
theorem C5_search_filter_page_interaction (s : DashboardState) (q : String)
    (f : FiltersState) (p : Int) :
    (handleSearch q s).pagination.page = 1 ∧
    (handleSearch q s).searchQuery = q ∧
    (handleSearch q s).filters = s.filters ∧
    (handleFiltersChange f s).pagination.page = 1 ∧
    (handleFiltersChange f s).filters = f ∧
    (handleFiltersChange f s).searchQuery = s.searchQuery ∧
    (searchOnChange q s).searchQuery = q ∧
    (searchOnChange q s).pagination = s.pagination ∧
    (searchOnChange q s).filters = s.filters ∧
    (handlePageChange p s).pagination.page = p ∧
    (handlePageChange p s).searchQuery = s.searchQuery ∧
    (handlePageChange p s).filters = s.filters :=
  ⟨rfl, rfl, rfl, rfl, rfl, rfl, rfl, rfl, rfl, rfl, rfl, rfl⟩

/-- C6: whenever the Pagination component renders, the displayed range is
`startItem = (page-1)*per_page+1`, `endItem = min (page*per_page) total`, the
Previous control is disabled iff `has_prev` is false, and the Next control is
disabled iff `has_next` is false. -/
theorem C6_pagination_display (p : PaginationInfo) (r : PaginationRender)
    (h : renderPagination p = some r) :
    r.startItem = (p.page - 1) * p.per_page + 1 ∧
    r.endItem = min (p.page * p.per_page) p.total ∧
    (r.prevDisabled = true ↔ p.has_prev = false) ∧
    (r.nextDisabled = true ↔ p.has_next = false) := by
  unfold renderPagination at h
  by_cases hp : p.pages ≤ 1
  · rw [if_pos hp] at h; cases h
  · rw [if_neg hp] at h
    injection h with h
    subst h
    refine ⟨rfl, rfl, ?_, ?_⟩ <;> cases hb : p.has_prev <;> cases hb2 : p.has_next <;> simp

/-- C6 witness: the theorem applied to the concrete page-3-of-8 envelope. -/
theorem C6_pagination_display_witness :
    paginationSampleRender.startItem
      = (paginationSample.page - 1) * paginationSample.per_page + 1 ∧
    paginationSampleRender.endItem
      = min (paginationSample.page * paginationSample.per_page) paginationSample.total ∧
    (paginationSampleRender.prevDisabled = true ↔ paginationSample.has_prev = false) ∧
    (paginationSampleRender.nextDisabled = true ↔ paginationSample.has_next = false) :=
  C6_pagination_display paginationSample paginationSampleRender (by decide)

/-- C9: unchecking removes every occurrence of the value from the chosen facet
array, checking appends it at the end, the other facet arrays are unchanged,
and `clearAllFilters` empties all four. -/
theorem C9_filter_change_frame (f : FiltersState) (t t2 : FacetType) (v : String)
    (hne : t2 ≠ t) :
    (handleFilterChange f t v true).get t = f.get t ++ [v] ∧
    (handleFilterChange f t v false).get t = (f.get t).filter (fun x => x ≠ v) ∧
    (handleFilterChange f t v true).get t2 = f.get t2 ∧
    (handleFilterChange f t v false).get t2 = f.get t2 ∧
    clearAllFilters = { categories := [], formats := [], languages := [], licenses := [] } := by
  refine ⟨?_, ?_, ?_, ?_, rfl⟩ <;>
    cases t <;>
    first
      | rfl
      | (cases t2 <;> first | (exact absurd rfl hne) | rfl)

/-- C9 witness: checking "quran" in the empty categories facet appends it and
leaves the formats facet unchanged. -/
theorem C9_filter_change_frame_witness :
    (handleFilterChange clearAllFilters .categories "quran" true).get .categories
      = clearAllFilters.get .categories ++ ["quran"] ∧
    (handleFilterChange clearAllFilters .categories "quran" true).get .formats
      = clearAllFilters.get .formats := by
  have h := C9_filter_change_frame clearAllFilters .categories .formats "quran" (by decide)
  exact ⟨h.1, h.2.2.1⟩

/-- C1 counterexample: with the provider settled and unauthenticated, calling
`updateUser` with a not-yet-completed user sets `requiresProfileCompletion`
to true, while the §3 invariant (User exists AND provider-authenticated AND
completion flag false) is false — so the claimed iff fails after `updateUser`. -/
theorem C1_counterexample :
    (updateUser sampleUserIncomplete emptyState).comp.requiresProfileCompletion = true ∧
    requiredByInvariant auth0Unauthed (updateUser sampleUserIncomplete emptyState) = false :=
  ⟨rfl, rfl⟩

/-- C1 (amended): `requiresProfileCompletion` equals the §3 invariant after the
sync effect (against the provider state it ran with, when not loading), after
`logout`, and after a successful `completeProfile`; but `updateUser` derives it
from the given User's own `profileCompleted` flag alone, and the mount-time
load derives it from the stored User and the persisted flag alone — neither
consults provider authentication, so the full iff can fail after those two. -/
theorem C1_invariant_after_operations (a : Auth0State) (ui : UserinfoResult)
    (s : AuthSystemState) (u : User) (b : BackendUser) (sub loc : String) :
    (a.isLoading = false →
      (syncUser a ui s).comp.requiresProfileCompletion
        = requiredByInvariant a (syncUser a ui s)) ∧
    (logout s).comp.requiresProfileCompletion = requiredByInvariant a (logout s) ∧
    (completeProfile (.ok b) sub loc s).1.comp.requiresProfileCompletion
      = requiredByInvariant a (completeProfile (.ok b) sub loc s).1 ∧
    (updateUser u s).comp.requiresProfileCompletion = !u.profileCompleted ∧
    (mountLoad s).comp.requiresProfileCompletion =
      (match s.storage.itqan_user with
       | some pu => !(s.storage.itqan_profile_completed == some "1") && !pu.profileCompleted
       | none => s.comp.requiresProfileCompletion) := by
  refine ⟨?_, ?_, ?_, rfl, ?_⟩
  · intro hl
    unfold syncUser
    rw [hl]
    simp only [Bool.false_eq_true, if_false]
    by_cases ha : a.isAuthenticated
    · rw [if_pos ha]
      cases hu : a.user with
      | some au =>
        by_cases hp : s.storage.itqan_profile_completed == some "1" <;>
          simp [hp, ha, persistUserState, requiredByInvariant]
      | none => simp [persistUserState, requiredByInvariant]
    · rw [if_neg ha]
      simp [persistUserState, requiredByInvariant]
  · simp [logout, requiredByInvariant]
  · simp [completeProfile, persistUserState, requiredByInvariant]
  · unfold mountLoad
    cases s.storage.itqan_user <;> simp

/-- C1 witness: the amended theorem at a concrete authenticated sync and a
concrete logout. -/
theorem C1_invariant_witness :
    (syncUser auth0Authed .nonOk emptyState).comp.requiresProfileCompletion
      = requiredByInvariant auth0Authed (syncUser auth0Authed .nonOk emptyState) ∧
    (logout emptyState).comp.requiresProfileCompletion
      = requiredByInvariant auth0Authed (logout emptyState) := by
  have h := C1_invariant_after_operations auth0Authed .nonOk emptyState
    sampleUserIncomplete backendUserSample "auth0|123" "en"
  exact ⟨h.1 rfl, h.2.1⟩

/-- C2 counterexample: from a state with both keys persisted, `logout` leaves
`itqan_user` and `itqan_profile_completed` untouched, so the logout operation
does not clear the persisted User record or the persisted completion flag. -/
theorem C2_counterexample :
    (logout loggedInState).storage.itqan_user = some sampleUserIncomplete ∧
    (logout loggedInState).storage.itqan_profile_completed = some "0" :=
  ⟨rfl, rfl⟩

/-- C2 (amended): the `logout` handler clears the in-memory User and resets
`requiresProfileCompletion` but leaves localStorage unchanged; the persisted
keys are cleared only by the subsequent sync effect once the provider reports
unauthenticated. -/
theorem C2_logout_clears_memory_not_storage (s : AuthSystemState) :
    (logout s).comp.user = none ∧
    (logout s).comp.requiresProfileCompletion = false ∧
    (logout s).storage = s.storage ∧
    (∀ (a : Auth0State) (ui : UserinfoResult),
      a.isLoading = false → a.isAuthenticated = false →
      (syncUser a ui (logout s)).storage.itqan_user = none ∧
      (syncUser a ui (logout s)).storage.itqan_profile_completed = none) := by
  refine ⟨rfl, rfl, rfl, ?_⟩
  intro a ui hl ha
  unfold syncUser
  rw [hl, ha]
  simp [persistUserState]

/-- C2 witness: the amended theorem at the concrete logged-in state followed by
an unauthenticated sync. -/
theorem C2_logout_witness :
    (logout loggedInState).comp.user = none ∧
    (syncUser auth0Unauthed .nonOk (logout loggedInState)).storage.itqan_user = none := by
  have h := C2_logout_clears_memory_not_storage loggedInState
  exact ⟨h.1, (h.2.2.2 auth0Unauthed .nonOk rfl rfl).1⟩

/-- C8: when the primary email claim is absent and the `/userinfo` fallback
fails (non-ok response or network error), the synced and persisted User has an
empty email; and when the profile submission fails (non-ok response or thrown
error), `completeProfile` rethrows and leaves the state unchanged. -/
theorem C8_failure_degradation (a : Auth0State) (au : Auth0User) (ui : UserinfoResult)
    (s : AuthSystemState) (sub loc : String) :
    (a.isLoading = false → a.isAuthenticated = true → a.user = some au →
      au.email = none → (ui = .nonOk ∨ ui = .netError) →
      ∃ u : User, (syncUser a ui s).comp.user = some u ∧ u.email = "" ∧
        (syncUser a ui s).storage.itqan_user = some u) ∧
    ((completeProfile .errResp sub loc s).1 = s ∧
      (completeProfile .errResp sub loc s).2 = Except.error ()) ∧
    ((completeProfile .netError sub loc s).1 = s ∧
      (completeProfile .netError sub loc s).2 = Except.error ()) := by
  refine ⟨?_, ⟨rfl, rfl⟩, ⟨rfl, rfl⟩⟩
  intro hl ha hu he hui
  have hre : resolveEmail au ui = none := by
    rcases hui with rfl | rfl <;> simp [resolveEmail, he]
  unfold syncUser
  rw [hl, ha]
  simp only [Bool.false_eq_true, if_false, if_true, hu]
  by_cases hp : s.storage.itqan_profile_completed == some "1" <;>
    simp [hp, hre, persistUserState]

/-- C8 witness: the theorem at a concrete authenticated user without an email
claim whose `/userinfo` fallback returns non-ok. -/
theorem C8_failure_witness :
    ∃ u : User,
      (syncUser auth0AuthedNoEmail .nonOk emptyState).comp.user = some u ∧
      u.email = "" ∧
      (syncUser auth0AuthedNoEmail .nonOk emptyState).storage.itqan_user = some u := by
  have h := C8_failure_degradation auth0AuthedNoEmail auth0UserNoEmail .nonOk emptyState
    "auth0|999" "en"
  exact h.1 rfl rfl rfl rfl (Or.inl rfl)

/-- C3 counterexample: with state settled, the invariant false (no User,
unauthenticated) and the location an auth page (`/en/auth/login`), the route
guard issues no redirect at all — in particular no redirect to the dashboard,
contrary to the claim's "whenever it does not hold and the location is an auth
page, a redirect to the dashboard occurs". -/
theorem C3_counterexample :
    routeGuard auth0Unauthed
      { user := none, isLoading := false, requiresProfileCompletion := false }
      "/en/auth/login" "en" = none := by
  decide

/-- C3 (amended): after state settles, callback locations are exempt; an
authenticated user (provider flag and local User both present) is redirected
to the completion page whenever `requiresProfileCompletion` holds and the
location is not the completion page, and from auth pages to the dashboard
whenever it does not hold; an unauthenticated visitor outside auth pages and
the home page is redirected to the login page (not the dashboard). -/
theorem C3_route_guard (a : Auth0State) (c : ComponentState) (pathname locale : String)
    (hc : c.isLoading = false) (ha : a.isLoading = false) :
    (strContains pathname "/auth/callback" = true →
      routeGuard a c pathname locale = none) ∧
    (strContains pathname "/auth/callback" = false →
      a.isAuthenticated = true → c.user.isSome = true →
      c.requiresProfileCompletion = true →
      strContains pathname "/auth/complete-profile" = false →
      routeGuard a c pathname locale = some ("/" ++ locale ++ "/auth/complete-profile")) ∧
    (strContains pathname "/auth/callback" = false →
      a.isAuthenticated = true → c.user.isSome = true →
      c.requiresProfileCompletion = false →
      strContains pathname "/auth/" = true →
      routeGuard a c pathname locale = some ("/" ++ locale ++ "/dashboard")) ∧
    (strContains pathname "/auth/callback" = false →
      a.isAuthenticated = false →
      strContains pathname "/auth/" = false →
      (pathname == "/" ++ locale) = false →
      (pathname == "/" ++ locale ++ "/") = false →
      routeGuard a c pathname locale = some ("/" ++ locale ++ "/auth/login")) := by
  refine ⟨?_, ?_, ?_, ?_⟩
  · intro hcb
    unfold routeGuard
    simp [hc, ha, hcb]
  · intro hcb hauth huser hrpc hcp
    unfold routeGuard
    simp [hc, ha, hcb, hauth, huser, hrpc, hcp]
  · intro hcb hauth huser hrpc hroute
    unfold routeGuard
    simp [hc, ha, hcb, hauth, huser, hrpc, hroute]
  · intro hcb hauth hroute hh1 hh2
    unfold routeGuard
    simp [hc, ha, hcb, hauth, hroute, hh1, hh2]

/-- C3 witness: an authenticated user needing profile completion, sitting on
the dashboard, is redirected to the completion page. -/
theorem C3_route_guard_witness :
    routeGuard auth0Authed
      { user := some sampleUserIncomplete, isLoading := false
        requiresProfileCompletion := true }
      "/en/dashboard" "en" = some ("/" ++ "en" ++ "/auth/complete-profile") := by
  have h := C3_route_guard auth0Authed
    { user := some sampleUserIncomplete, isLoading := false
      requiresProfileCompletion := true }
    "/en/dashboard" "en" rfl rfl
  exact h.2.1 (by decide) rfl rfl rfl (by decide)

/-- Membership in `intRange` is the pair of bounds. -/
theorem mem_intRange {lo hi n : Int} : n ∈ intRange lo hi ↔ lo ≤ n ∧ n ≤ hi := by
  unfold intRange
  simp only [List.mem_map, List.mem_range]
  constructor
  · rintro ⟨k, hk, rfl⟩
    omega
  · rintro ⟨hl, hh⟩
    exact ⟨(n - lo).toNat, by omega, by omega⟩

/-- C10: with `1 ≤ page ≤ pages`, `getVisiblePages` returns exactly the
ascending list `[1, ..., pages]` when `pages ≤ 7`; when `pages > 7` the result
contains the current page, page 1, and the last page; and the Pagination
component renders nothing when `pages ≤ 1`. -/
theorem C10_visible_pages (page pages : Int) (h1 : 1 ≤ page) (h2 : page ≤ pages) :
    (pages ≤ 7 →
      getVisiblePages page pages
        = (List.range pages.toNat).map (fun (k : Nat) => PageItem.page (1 + (k : Int)))) ∧
    (7 < pages →
      PageItem.page page ∈ getVisiblePages page pages ∧
      PageItem.page 1 ∈ getVisiblePages page pages ∧
      PageItem.page pages ∈ getVisiblePages page pages) ∧
    (∀ q : PaginationInfo, q.pages ≤ 1 → renderPagination q = none) := by
  refine ⟨?_, ?_, ?_⟩
  · intro h7
    unfold getVisiblePages intRange
    rw [if_pos h7]
    have hpp : pages + 1 - 1 = pages := by omega
    rw [hpp, List.map_map]
    rfl
  · intro h7
    have h7' : ¬pages ≤ 7 := by omega
    unfold getVisiblePages
    rw [if_neg h7']
    by_cases hp4 : page ≤ 4
    · rw [if_pos hp4]
      refine ⟨?_, List.mem_cons_self _ _, ?_⟩
      · rcases eq_or_ne page 1 with rfl | hp1
        · exact List.mem_cons_self _ _
        · refine List.mem_cons.mpr (Or.inr (List.mem_append.mpr (Or.inl ?_)))
          exact List.mem_map.mpr ⟨page, mem_intRange.mpr ⟨by omega, by omega⟩, rfl⟩
      · refine List.mem_cons.mpr (Or.inr (List.mem_append.mpr (Or.inr ?_)))
        simp
    · rw [if_neg hp4]
      by_cases hp3 : page ≥ pages - 3
      · rw [if_pos hp3]
        refine ⟨?_, List.mem_cons_self _ _, ?_⟩
        · refine List.mem_cons.mpr (Or.inr (List.mem_cons.mpr (Or.inr ?_)))
          exact List.mem_map.mpr ⟨page, mem_intRange.mpr ⟨by omega, by omega⟩, rfl⟩
        · refine List.mem_cons.mpr (Or.inr (List.mem_cons.mpr (Or.inr ?_)))
          exact List.mem_map.mpr ⟨pages, mem_intRange.mpr ⟨by omega, by omega⟩, rfl⟩
      · rw [if_neg hp3]
        refine ⟨?_, List.mem_cons_self _ _, ?_⟩
        · refine List.mem_cons.mpr (Or.inr (List.mem_cons.mpr (Or.inr
            (List.mem_append.mpr (Or.inl ?_)))))
          exact List.mem_map.mpr ⟨page, mem_intRange.mpr ⟨by omega, by omega⟩, rfl⟩
        · refine List.mem_cons.mpr (Or.inr (List.mem_cons.mpr (Or.inr
            (List.mem_append.mpr (Or.inr ?_)))))
          simp
  · intro q hq
    unfold renderPagination
    rw [if_pos hq]

/-- C10 witness: the theorem at page 9 of 20 (the middle branch). -/
theorem C10_visible_pages_witness :
    PageItem.page 9 ∈ getVisiblePages 9 20 ∧
    PageItem.page 1 ∈ getVisiblePages 9 20 ∧
    PageItem.page 20 ∈ getVisiblePages 9 20 :=
  (C10_visible_pages 9 20 (by decide) (by decide)).2.1 (by decide)

/-- Inversion for the field-error record build: a looked-up message comes from
some listed error for that field. -/
theorem applyFieldErrors_eq_some (errs : List FieldError) (n m : String)
    (h : applyFieldErrors errs n = some m) :
    ∃ e ∈ errs, e.field = n ∧ e.message = m := by
  induction errs with
  | nil => simp [applyFieldErrors] at h
  | cons a rest ih =>
    rw [applyFieldErrors] at h
    cases hr : applyFieldErrors rest n with
    | some m2 =>
      rw [hr] at h
      injection h with h
      subst h
      obtain ⟨e, he, hf, hm⟩ := ih hr
      exact ⟨e, List.mem_cons_of_mem _ he, hf, hm⟩
    | none =>
      rw [hr] at h
      by_cases hn : n = a.field
      · rw [if_pos hn] at h
        injection h with h
        exact ⟨a, List.mem_cons_self _ _, hn.symm, h⟩
      · rw [if_neg hn] at h
        cases h

/-- The field-error record build is defined at the field of every listed error. -/
theorem applyFieldErrors_mem_some (errs : List FieldError) (e : FieldError)
    (he : e ∈ errs) : ∃ m, applyFieldErrors errs e.field = some m := by
  induction errs with
  | nil => cases he
  | cons a rest ih =>
    cases hr : applyFieldErrors rest e.field with
    | some m => exact ⟨m, by rw [applyFieldErrors, hr]⟩
    | none =>
      rcases List.mem_cons.mp he with rfl | hm
      · exact ⟨e.message, by rw [applyFieldErrors, hr, if_pos rfl]⟩
      · obtain ⟨m, hm2⟩ := ih hm
        rw [hm2] at hr
        cases hr

/-- C7: submitting with any required field empty yields a non-empty error
message for that field and no network call — the handler returns before
invoking the backend operation. -/
theorem C7_required_empty_blocks_submit (fields : List FormField) (f : FormField)
    (hf : f ∈ fields) (hreq : f.required = true) (hempty : f.value = "") :
    (handleFormSubmit fields).networkCalled = false ∧
    ∃ msg, (handleFormSubmit fields).fieldErrors f.name = some msg ∧ msg ≠ "" := by
  have hmemfilter : f ∈ fields.filter (fun g => g.required && g.value == "") :=
    List.mem_filter.mpr ⟨hf, by simp [hreq, hempty]⟩
  have hmemmap :
      ({ field := f.name, message := f.name ++ " is required" } : FieldError)
        ∈ (validateForm fields).errors :=
    List.mem_map.mpr ⟨f, hmemfilter, rfl⟩
  have hvalid : (validateForm fields).isValid = false := by
    rcases hval : (validateForm fields).isValid with _ | _
    · rfl
    · exfalso
      have hempty2 : (validateForm fields).errors = [] := by
        have := hval
        unfold validateForm at this ⊢
        exact List.isEmpty_iff.mp this
      rw [hempty2] at hmemmap
      cases hmemmap
  have hsubmit : handleFormSubmit fields =
      { fieldErrors := applyFieldErrors (validateForm fields).errors
        networkCalled := false } := by
    simp [handleFormSubmit, hvalid]
  rw [hsubmit]
  refine ⟨rfl, ?_⟩
  obtain ⟨m, hm⟩ := applyFieldErrors_mem_some (validateForm fields).errors
    ⟨f.name, f.name ++ " is required"⟩ hmemmap
  refine ⟨m, hm, ?_⟩
  obtain ⟨e, he, hfield, hmsg⟩ := applyFieldErrors_eq_some _ _ _ hm
  obtain ⟨g, _, hge⟩ := List.mem_map.mp he
  intro hcontr
  rw [← hge] at hmsg
  simp only at hmsg
  rw [← hmsg] at hcontr
  have hlen := congrArg String.length hcontr
  rw [String.length_append] at hlen
  have h12 : (" is required").length = 12 := rfl
  have h0 : ("" : String).length = 0 := rfl
  omega

/-- C7 witness: the login form submitted with an empty email field reports a
non-empty email error and makes no network call. -/
theorem C7_required_empty_witness :
    (handleEmailLogin "" "secret").networkCalled = false ∧
    ∃ msg, (handleEmailLogin "" "secret").fieldErrors "email" = some msg ∧ msg ≠ "" := by
  have h := C7_required_empty_blocks_submit
    [ { name := "email", value := "", required := true }
    , { name := "password", value := "secret", required := true } ]
    { name := "email", value := "", required := true }
    (List.mem_cons_self _ _) rfl rfl
  exact h

end ItqanCMS
